import Mathlib

/-!
Verification development for camera/ICameraService.cpp: the BpCameraService
call proxy, the shared readExceptionCode helper and the BnCameraService
dispatch stub, embedded over a list-of-fields model of the binder Parcel
wire codec.  Mutable Parcel read cursors are embedded by state passing:
every read returns the value together with the unread remainder of the
parcel, so "reads no further field" is the statement that the remainder is
untouched.
-/

/-- Modelled from the spec: one field of a binder Parcel.  The Wire Codec
(the binder Parcel class) is not under src; per the spec it is a
deterministic, order-preserving sequence of 32-bit integers,
length-prefixed text, capability references and interface tokens.  A
capability reference is an opaque handle, possibly null, modelled as
Option Nat. -/
inductive WireField where
  | int32 : Int → WireField
  | string16 : String → WireField
  | strongBinder : Option Nat → WireField
  | interfaceToken : String → WireField
deriving DecidableEq, Repr

/-- Modelled from the spec: an envelope is an ordered, typed sequence of
encoded fields. -/
abbrev Parcel := List WireField

/-- Modelled from the spec: reading a 32-bit integer consumes the next
field of the parcel; the codec is order-preserving and a decode must never
read past what a matching encode wrote, so a missing or mismatched field
yields the default value 0. -/
def readInt32 : Parcel → Int × Parcel
  | WireField.int32 n :: rest => (n, rest)
  | [] => (0, [])
  | _ :: rest => (0, rest)

/-- Modelled from the spec: reading length-prefixed text consumes the next
field; a missing or mismatched field yields the empty text. -/
def readString16 : Parcel → String × Parcel
  | WireField.string16 s :: rest => (s, rest)
  | [] => ("", [])
  | _ :: rest => ("", rest)

/-- Modelled from the spec: reading a capability reference consumes the
next field; a missing or mismatched field yields the null reference. -/
def readStrongBinder : Parcel → Option Nat × Parcel
  | WireField.strongBinder b :: rest => (b, rest)
  | [] => (none, [])
  | _ :: rest => (none, rest)

/-- Modelled from the spec: writes append one field, preserving order. -/
def writeInt32 (p : Parcel) (n : Int) : Parcel := p ++ [WireField.int32 n]

/-- Modelled from the spec: writes append one field, preserving order. -/
def writeString16 (p : Parcel) (s : String) : Parcel := p ++ [WireField.string16 s]

/-- Modelled from the spec: writes append one field, preserving order. -/
def writeStrongBinder (p : Parcel) (b : Option Nat) : Parcel := p ++ [WireField.strongBinder b]

/-- Modelled from the spec: writes append one field, preserving order. -/
def writeInterfaceToken (p : Parcel) (s : String) : Parcel := p ++ [WireField.interfaceToken s]

/-- Modelled from the spec: the None ExceptionOutcome encodes as a
dedicated zero marker, written first in every reply envelope
(Parcel writeNoException of the binder framework, not under src). -/
def writeNoException (p : Parcel) : Parcel := writeInt32 p 0

/- Exception codes, from the anonymous enum at lines 41 to 48 of
camera/ICameraService.cpp. -/

def EX_SECURITY : Int := -1
def EX_BAD_PARCELABLE : Int := -2
def EX_ILLEGAL_ARGUMENT : Int := -3
def EX_NULL_POINTER : Int := -4
def EX_ILLEGAL_STATE : Int := -5
def EX_HAS_REPLY_HEADER : Int := -128

/-- The switch at lines 55 to 75 of camera/ICameraService.cpp: the
taxonomy message computed from a non-zero exception code for the log.
Note the switch has no EX_ILLEGAL_ARGUMENT case, so that code falls to
the default branch. -/
def decodeExceptionMsg (exceptionCode : Int) : String :=
  if exceptionCode = EX_SECURITY then "Security"
  else if exceptionCode = EX_BAD_PARCELABLE then "BadParcelable"
  else if exceptionCode = EX_NULL_POINTER then "NullPointer"
  else if exceptionCode = EX_ILLEGAL_STATE then "IllegalState"
  else if exceptionCode = EX_HAS_REPLY_HEADER then "HasReplyHeader"
  else "Unknown"

/-- readExceptionCode at lines 50 to 82 of camera/ICameraService.cpp:
reads the leading exception code of the reply; on a non-zero code the
switch computes decodeExceptionMsg for the log and the helper returns
true, otherwise it returns false. -/
def readExceptionCode (reply : Parcel) : Bool × Parcel :=
  let (exceptionCode, rest) := readInt32 reply
  if exceptionCode ≠ 0 then (true, rest) else (false, rest)

/-- Linux errno value EPROTO; the proxy returns -EPROTO on a non-zero
exception code in getCameraInfo, addListener and removeListener. -/
def EPROTO : Int := 71

/-- Modelled from the spec: success status of a dispatched transaction
(Errors.h of the framework, not under src). -/
def NO_ERROR : Int := 0

/-- Modelled from the spec: the status CHECK_INTERFACE returns on an
interface token mismatch, a protocol-level rejection (Errors.h value
-EPERM; the macro is in the binder framework, not under src). -/
def PERMISSION_DENIED : Int := -1

/-- Modelled from the spec: the defined failure status the generic
BBinder fallback reports for an unrecognized opcode (Errors.h, not under
src). -/
def UNKNOWN_TRANSACTION : Int := -2147483644

/-- Modelled from the spec: the POSIX-like negative status a local
implementation returns for an invalid camera id (-EINVAL; the
implementation behind the stub is not under src). -/
def BAD_VALUE : Int := -22

/-- The interface descriptor constant from line 196 of
camera/ICameraService.cpp (IMPLEMENT_META_INTERFACE). -/
def interfaceDescriptor : String := "android.hardware.ICameraService"

/- Opcodes.  Modelled from the spec: the BnCameraService transaction enum
lives in the ICameraService header, not under src; section 6 of the spec
fixes the numbering 1 to 7 in declaration order. -/

def GET_NUMBER_OF_CAMERAS : Nat := 1
def GET_CAMERA_INFO : Nat := 2
def CONNECT : Nat := 3
def CONNECT_PRO : Nat := 4
def CONNECT_DEVICE : Nat := 5
def ADD_LISTENER : Nat := 6
def REMOVE_LISTENER : Nat := 7

/-- The CameraInfo record filled by getCameraInfo: facing and orientation,
both 32-bit integers on the wire. -/
structure CameraInfo where
  facing : Int
  orientation : Int
deriving DecidableEq, Repr

/- Proxy-side reply decoding, one definition per BpCameraService method,
returning the decoded result together with the unread remainder of the
reply parcel. -/

/-- Reply decoding of BpCameraService getNumberOfCameras, lines 101 to
102: on a non-zero exception code return 0, else read the count. -/
def getNumberOfCameras_decodeReply (reply : Parcel) : Int × Parcel :=
  let (ex, r) := readExceptionCode reply
  if ex then (0, r)
  else readInt32 r

/-- The optional-block decode of BpCameraService getCameraInfo, lines 115
to 118: read the presence marker; if non-zero read facing and orientation
into the record, else leave the callers record untouched. -/
def readCameraInfoBlock (reply : Parcel) (cameraInfo : CameraInfo) : CameraInfo × Parcel :=
  let (present, r1) := readInt32 reply
  if present ≠ 0 then
    let (facing, r2) := readInt32 r1
    let (orientation, r3) := readInt32 r2
    (CameraInfo.mk facing orientation, r3)
  else (cameraInfo, r1)

/-- Reply decoding of BpCameraService getCameraInfo, lines 113 to 119: on
a non-zero exception code return -EPROTO with the record untouched, else
read the status and then the optional CameraInfo block. -/
def getCameraInfo_decodeReply (reply : Parcel) (cameraInfo : CameraInfo) :
    Int × CameraInfo × Parcel :=
  let (ex, r) := readExceptionCode reply
  if ex then (-EPROTO, cameraInfo, r)
  else
    let (result, r1) := readInt32 r
    let (ci, r2) := readCameraInfoBlock r1 cameraInfo
    (result, ci, r2)

/-- Reply decoding of the legacy-connect method, lines 134 to 135: on a
non-zero exception code return the null reference, else read the camera
reference. -/
def connect_decodeReply (reply : Parcel) : Option Nat × Parcel :=
  let (ex, r) := readExceptionCode reply
  if ex then (none, r)
  else readStrongBinder r

/-- Reply decoding of the pro-connect method, lines 150 to 151. -/
def connectPro_decodeReply (reply : Parcel) : Option Nat × Parcel :=
  let (ex, r) := readExceptionCode reply
  if ex then (none, r)
  else readStrongBinder r

/-- Reply decoding of the device-connect method, lines 169 to 170. -/
def connectDevice_decodeReply (reply : Parcel) : Option Nat × Parcel :=
  let (ex, r) := readExceptionCode reply
  if ex then (none, r)
  else readStrongBinder r

/-- Reply decoding of addListener, lines 180 to 181: on a non-zero
exception code return -EPROTO, else read the status. -/
def addListener_decodeReply (reply : Parcel) : Int × Parcel :=
  let (ex, r) := readExceptionCode reply
  if ex then (-EPROTO, r)
  else readInt32 r

/-- Reply decoding of removeListener, lines 191 to 192. -/
def removeListener_decodeReply (reply : Parcel) : Int × Parcel :=
  let (ex, r) := readExceptionCode reply
  if ex then (-EPROTO, r)
  else readInt32 r

/- The BpCameraService proxy methods.  The transport round trip
(remote transact) is an opaque synchronous primitive per the spec,
modelled as a function from opcode and call envelope to reply envelope. -/

/-- BpCameraService getNumberOfCameras, lines 95 to 103. -/
def BpCameraService_getNumberOfCameras (transport : Nat → Parcel → Parcel) : Int :=
  let data := writeInterfaceToken [] interfaceDescriptor
  let reply := transport GET_NUMBER_OF_CAMERAS data
  (getNumberOfCameras_decodeReply reply).1

/-- BpCameraService getCameraInfo, lines 106 to 120; the in-out CameraInfo
pointer is embedded as an argument and result pair. -/
def BpCameraService_getCameraInfo (transport : Nat → Parcel → Parcel)
    (cameraId : Int) (cameraInfo : CameraInfo) : Int × CameraInfo :=
  let data := writeInterfaceToken [] interfaceDescriptor
  let data := writeInt32 data cameraId
  let reply := transport GET_CAMERA_INFO data
  let r := getCameraInfo_decodeReply reply cameraInfo
  (r.1, r.2.1)

/-- BpCameraService legacy connect, lines 123 to 136.  The source
dereferences the callback unconditionally (cameraClient asBinder), so the
callback argument is a non-null handle. -/
def BpCameraService_connect (transport : Nat → Parcel → Parcel)
    (cameraClient : Nat) (cameraId : Int) (clientPackageName : String)
    (clientUid : Int) : Option Nat :=
  let data := writeInterfaceToken [] interfaceDescriptor
  let data := writeStrongBinder data (some cameraClient)
  let data := writeInt32 data cameraId
  let data := writeString16 data clientPackageName
  let data := writeInt32 data clientUid
  let reply := transport CONNECT data
  (connect_decodeReply reply).1

/-- BpCameraService pro connect, lines 139 to 152. -/
def BpCameraService_connectPro (transport : Nat → Parcel → Parcel)
    (cameraCb : Nat) (cameraId : Int) (clientPackageName : String)
    (clientUid : Int) : Option Nat :=
  let data := writeInterfaceToken [] interfaceDescriptor
  let data := writeStrongBinder data (some cameraCb)
  let data := writeInt32 data cameraId
  let data := writeString16 data clientPackageName
  let data := writeInt32 data clientUid
  let reply := transport CONNECT_PRO data
  (connectPro_decodeReply reply).1

/-- BpCameraService device connect, lines 155 to 171. -/
def BpCameraService_connectDevice (transport : Nat → Parcel → Parcel)
    (cameraCb : Nat) (cameraId : Int) (clientPackageName : String)
    (clientUid : Int) : Option Nat :=
  let data := writeInterfaceToken [] interfaceDescriptor
  let data := writeStrongBinder data (some cameraCb)
  let data := writeInt32 data cameraId
  let data := writeString16 data clientPackageName
  let data := writeInt32 data clientUid
  let reply := transport CONNECT_DEVICE data
  (connectDevice_decodeReply reply).1

/-- BpCameraService addListener, lines 173 to 182. -/
def BpCameraService_addListener (transport : Nat → Parcel → Parcel)
    (listener : Nat) : Int :=
  let data := writeInterfaceToken [] interfaceDescriptor
  let data := writeStrongBinder data (some listener)
  let reply := transport ADD_LISTENER data
  (addListener_decodeReply reply).1

/-- BpCameraService removeListener, lines 184 to 193. -/
def BpCameraService_removeListener (transport : Nat → Parcel → Parcel)
    (listener : Nat) : Int :=
  let data := writeInterfaceToken [] interfaceDescriptor
  let data := writeStrongBinder data (some listener)
  let reply := transport REMOVE_LISTENER data
  (removeListener_decodeReply reply).1

/- The BnCameraService dispatch stub. -/

/-- The abstract local implementation behind the stub (the virtual
ICameraService methods the stub invokes; the concrete service is not
under src).  getCameraInfo receives the zero-initialized record by
pointer, embedded as an argument and result pair. -/
structure ICameraServiceImpl where
  getNumberOfCameras : Int
  getCameraInfo : Int → CameraInfo → Int × CameraInfo
  connect : Option Nat → Int → String → Int → Option Nat
  connectPro : Option Nat → Int → String → Int → Option Nat
  connectDevice : Option Nat → Int → String → Int → Option Nat
  addListener : Option Nat → Int
  removeListener : Option Nat → Int

/-- Modelled from the spec: the CHECK_INTERFACE macro of the binder
framework is not under src; per the spec the stub verifies that the
leading InterfaceDescriptor of the envelope equals the expected constant,
consuming it, and on mismatch rejects the call before any operation logic
runs. -/
def checkInterface : Parcel → Bool × Parcel
  | WireField.interfaceToken s :: rest => (s == interfaceDescriptor, rest)
  | p => (false, p)

/-- The argument decoding shared by the three connect cases of the stub
(lines 226 to 230, 239 to 243 and 252 to 256): callback reference, camera
id, package name, uid, in that order. -/
def decodeConnectArgs (d : Parcel) : (Option Nat × Int × String × Int) × Parcel :=
  let (client, d1) := readStrongBinder d
  let (cameraId, d2) := readInt32 d1
  let (clientName, d3) := readString16 d2
  let (clientUid, d4) := readInt32 d3
  ((client, cameraId, clientName, clientUid), d4)

/-- The decoded connect arguments of an envelope applied to one local
connect implementation. -/
def connectApply (f : Option Nat → Int → String → Int → Option Nat)
    (d : Parcel) : Option Nat :=
  let a := (decodeConnectArgs d).1
  f a.1 a.2.1 a.2.2.1 a.2.2.2

/-- Lines 219 to 221 of camera/ICameraService.cpp: the stub fakes a
parcelable object, writing presence marker 1 and then facing and
orientation, unconditionally. -/
def writeCameraInfoBlock (p : Parcel) (cameraInfo : CameraInfo) : Parcel :=
  let p1 := writeInt32 p 1
  let p2 := writeInt32 p1 cameraInfo.facing
  writeInt32 p2 cameraInfo.orientation

/-- Modelled from the spec: the generic BBinder onTransact fallback for
unrecognized opcodes is not under src; per the spec it must not silently
succeed and reports a defined failure: no reply fields and an
unknown-transaction status. -/
def bbinderOnTransact (_code : Nat) (_data : Parcel) : Int × Parcel :=
  (UNKNOWN_TRANSACTION, [])

/-- BnCameraService onTransact, lines 200 to 282: switch on the opcode;
each recognized case first checks the interface token, then decodes the
arguments in order, invokes the local implementation and writes the
no-exception marker followed by the result fields; the default case
delegates to the generic BBinder fallback.  The three connect cases call
asBinder on the returned reference unconditionally, so a null reference
from the implementation is a null dereference: that undefined outcome is
embedded as none, a defined reply as some (status, reply parcel). -/
def BnCameraService_onTransact (impl : ICameraServiceImpl) (code : Nat)
    (data : Parcel) : Option (Int × Parcel) :=
  if code = GET_NUMBER_OF_CAMERAS then
    let (ok, _) := checkInterface data
    if ok then
      let reply := writeNoException []
      let reply := writeInt32 reply impl.getNumberOfCameras
      some (NO_ERROR, reply)
    else some (PERMISSION_DENIED, [])
  else if code = GET_CAMERA_INFO then
    let (ok, d) := checkInterface data
    if ok then
      let (cameraId, _) := readInt32 d
      let (result, cameraInfo) := impl.getCameraInfo cameraId (CameraInfo.mk 0 0)
      let reply := writeNoException []
      let reply := writeInt32 reply result
      let reply := writeCameraInfoBlock reply cameraInfo
      some (NO_ERROR, reply)
    else some (PERMISSION_DENIED, [])
  else if code = CONNECT then
    let (ok, d) := checkInterface data
    if ok then
      match connectApply impl.connect d with
      | none => none
      | some camera =>
        let reply := writeNoException []
        let reply := writeStrongBinder reply (some camera)
        some (NO_ERROR, reply)
    else some (PERMISSION_DENIED, [])
  else if code = CONNECT_PRO then
    let (ok, d) := checkInterface data
    if ok then
      match connectApply impl.connectPro d with
      | none => none
      | some camera =>
        let reply := writeNoException []
        let reply := writeStrongBinder reply (some camera)
        some (NO_ERROR, reply)
    else some (PERMISSION_DENIED, [])
  else if code = CONNECT_DEVICE then
    let (ok, d) := checkInterface data
    if ok then
      match connectApply impl.connectDevice d with
      | none => none
      | some camera =>
        let reply := writeNoException []
        let reply := writeStrongBinder reply (some camera)
        some (NO_ERROR, reply)
    else some (PERMISSION_DENIED, [])
  else if code = ADD_LISTENER then
    let (ok, d) := checkInterface data
    if ok then
      let (listener, _) := readStrongBinder d
      let reply := writeNoException []
      let reply := writeInt32 reply (impl.addListener listener)
      some (NO_ERROR, reply)
    else some (PERMISSION_DENIED, [])
  else if code = REMOVE_LISTENER then
    let (ok, d) := checkInterface data
    if ok then
      let (listener, _) := readStrongBinder d
      let reply := writeNoException []
      let reply := writeInt32 reply (impl.removeListener listener)
      some (NO_ERROR, reply)
    else some (PERMISSION_DENIED, [])
  else
    some (bbinderOnTransact code data)

/- Concrete fixtures used by witnesses and counterexamples. -/

/-- A concrete local implementation: two cameras, a successful
getCameraInfo that leaves the zeroed record untouched, connects that
return the handles 5, 6 and 7, and listener operations returning 0. -/
def implTest : ICameraServiceImpl :=
  ⟨2, fun _ ci => (0, ci), fun _ _ _ _ => some 5, fun _ _ _ _ => some 6,
   fun _ _ _ _ => some 7, fun _ => 0, fun _ => 0⟩

/-- Modelled from the spec: a concrete local implementation as seen on an
invalid camera id; getCameraInfo reports the POSIX-like negative status
BAD_VALUE and leaves the zero-initialized record untouched, and the
connect operations reject the id with a null reference. -/
def implInvalid : ICameraServiceImpl :=
  ⟨0, fun _ ci => (BAD_VALUE, ci), fun _ _ _ _ => none, fun _ _ _ _ => none,
   fun _ _ _ _ => none, fun _ => 0, fun _ => 0⟩

/-- A concrete argument list for the connect and listener operations: a
callback reference, a camera id, a package name and a uid. -/
def argsTest : Parcel :=
  [WireField.strongBinder (some 3), WireField.int32 0,
   WireField.string16 "pkg", WireField.int32 10]

/- Theorems. -/

/-- C1: for every one of the 7 proxy operations, if the decoded exception
code of the reply is non-zero the proxy returns the operations defined
failure value (0 for getNumberOfCameras, -EPROTO for getCameraInfo,
addListener and removeListener, the null reference for the three connect
operations) and reads no further reply field: the unread remainder after
decoding is exactly the reply minus the leading exception code. -/
theorem proxy_nonzero_outcome_fails_without_further_reads
    (code : Int) (hc : code ≠ 0) (rest : Parcel) (cameraInfo : CameraInfo) :
    getNumberOfCameras_decodeReply (WireField.int32 code :: rest) = (0, rest)
    ∧ getCameraInfo_decodeReply (WireField.int32 code :: rest) cameraInfo
        = (-EPROTO, cameraInfo, rest)
    ∧ connect_decodeReply (WireField.int32 code :: rest) = (none, rest)
    ∧ connectPro_decodeReply (WireField.int32 code :: rest) = (none, rest)
    ∧ connectDevice_decodeReply (WireField.int32 code :: rest) = (none, rest)
    ∧ addListener_decodeReply (WireField.int32 code :: rest) = (-EPROTO, rest)
    ∧ removeListener_decodeReply (WireField.int32 code :: rest) = (-EPROTO, rest) := by
  refine ⟨?_, ?_, ?_, ?_, ?_, ?_, ?_⟩ <;>
    simp [getNumberOfCameras_decodeReply, getCameraInfo_decodeReply,
      connect_decodeReply, connectPro_decodeReply, connectDevice_decodeReply,
      addListener_decodeReply, removeListener_decodeReply,
      readExceptionCode, readInt32, hc]

/-- Witness for C1 at the concrete exception code -1 (Security). -/
theorem proxy_nonzero_outcome_fails_without_further_reads_witness :
    ((-1 : Int) ≠ 0)
    ∧ getNumberOfCameras_decodeReply [WireField.int32 (-1)] = (0, []) :=
  ⟨by decide,
   (proxy_nonzero_outcome_fails_without_further_reads (-1) (by decide) []
      (CameraInfo.mk 0 0)).1⟩

/-- C4: the optional CameraDescriptor block round-trips.  The stub
encoding writes presence marker 1 then facing and orientation; for every
facing and orientation the proxy decode of that encoding yields the
original record and consumes exactly the block; on a presence marker 0
the proxy reads no facing or orientation field and leaves the callers
record unchanged. -/
theorem camera_descriptor_block_roundtrip
    (cameraInfo caller : CameraInfo) (p rest : Parcel) :
    writeCameraInfoBlock p cameraInfo
      = p ++ [WireField.int32 1, WireField.int32 cameraInfo.facing,
              WireField.int32 cameraInfo.orientation]
    ∧ readCameraInfoBlock (writeCameraInfoBlock [] cameraInfo ++ rest) caller
        = (cameraInfo, rest)
    ∧ readCameraInfoBlock (WireField.int32 0 :: rest) caller = (caller, rest) := by
  refine ⟨?_, ?_, ?_⟩
  · simp [writeCameraInfoBlock, writeInt32]
  · simp [writeCameraInfoBlock, writeInt32, readCameraInfoBlock, readInt32]
  · simp [readCameraInfoBlock, readInt32]

/-- C7: two distinct reply envelopes, one carrying the None outcome with
result field 0 and one carrying the Security outcome with no result
fields, make the proxy getNumberOfCameras return the same value 0, so a
caller observing only the return value cannot distinguish a service with
no cameras from a refused call. -/
theorem getNumberOfCameras_zero_vs_security_indistinguishable :
    ([WireField.int32 0, WireField.int32 0] : Parcel) ≠ [WireField.int32 EX_SECURITY]
    ∧ BpCameraService_getNumberOfCameras
        (fun _ _ => [WireField.int32 0, WireField.int32 0]) = 0
    ∧ BpCameraService_getNumberOfCameras
        (fun _ _ => [WireField.int32 EX_SECURITY]) = 0 := by
  refine ⟨by decide, by decide, by decide⟩

/-- C9: each proxy method sends one call envelope that begins with the
InterfaceDescriptor token and then holds exactly the operations arguments
in the fixed order of section 6 (nothing further for getNumberOfCameras,
the id for getCameraInfo, callback reference then id then package name
then uid for the three connects, the listener reference for addListener
and removeListener), and its return value is the decode of the transport
reply to exactly that envelope and opcode. -/
theorem proxy_call_envelope_shape
    (transport : Nat → Parcel → Parcel) (cameraId clientUid : Int)
    (clientPackageName : String) (cameraClient listener : Nat)
    (cameraInfo : CameraInfo) :
    BpCameraService_getNumberOfCameras transport
      = (getNumberOfCameras_decodeReply (transport GET_NUMBER_OF_CAMERAS
          [WireField.interfaceToken interfaceDescriptor])).1
    ∧ BpCameraService_getCameraInfo transport cameraId cameraInfo
      = ((getCameraInfo_decodeReply (transport GET_CAMERA_INFO
            [WireField.interfaceToken interfaceDescriptor,
             WireField.int32 cameraId]) cameraInfo).1,
         (getCameraInfo_decodeReply (transport GET_CAMERA_INFO
            [WireField.interfaceToken interfaceDescriptor,
             WireField.int32 cameraId]) cameraInfo).2.1)
    ∧ BpCameraService_connect transport cameraClient cameraId clientPackageName clientUid
      = (connect_decodeReply (transport CONNECT
          [WireField.interfaceToken interfaceDescriptor,
           WireField.strongBinder (some cameraClient), WireField.int32 cameraId,
           WireField.string16 clientPackageName, WireField.int32 clientUid])).1
    ∧ BpCameraService_connectPro transport cameraClient cameraId clientPackageName clientUid
      = (connectPro_decodeReply (transport CONNECT_PRO
          [WireField.interfaceToken interfaceDescriptor,
           WireField.strongBinder (some cameraClient), WireField.int32 cameraId,
           WireField.string16 clientPackageName, WireField.int32 clientUid])).1
    ∧ BpCameraService_connectDevice transport cameraClient cameraId clientPackageName clientUid
      = (connectDevice_decodeReply (transport CONNECT_DEVICE
          [WireField.interfaceToken interfaceDescriptor,
           WireField.strongBinder (some cameraClient), WireField.int32 cameraId,
           WireField.string16 clientPackageName, WireField.int32 clientUid])).1
    ∧ BpCameraService_addListener transport listener
      = (addListener_decodeReply (transport ADD_LISTENER
          [WireField.interfaceToken interfaceDescriptor,
           WireField.strongBinder (some listener)])).1
    ∧ BpCameraService_removeListener transport listener
      = (removeListener_decodeReply (transport REMOVE_LISTENER
          [WireField.interfaceToken interfaceDescriptor,
           WireField.strongBinder (some listener)])).1 :=
  ⟨rfl, rfl, rfl, rfl, rfl, rfl, rfl⟩

/-- C3 counterexample: the switch in readExceptionCode has no case for
the IllegalArgument code -3, which therefore decodes to Unknown and not
to the IllegalArgument taxonomy entry; and the negative value -128
decodes to the special HasReplyHeader entry, not to Unknown. -/
theorem decode_illegal_argument_falls_to_unknown_cex :
    decodeExceptionMsg EX_ILLEGAL_ARGUMENT = "Unknown"
    ∧ ("Unknown" : String) ≠ "IllegalArgument"
    ∧ decodeExceptionMsg EX_HAS_REPLY_HEADER = "HasReplyHeader"
    ∧ ("HasReplyHeader" : String) ≠ "Unknown" :=
  ⟨by decide, by decide, by decide, by decide⟩

/-- C3 as amended: on decode of the exception code, 0 maps to success
(readExceptionCode returns false and the proxy proceeds), the well-known
codes Security, BadParcelable, NullPointer and IllegalState map to their
named taxonomy entries, the IllegalArgument code -3 is absent from the
switch and maps to Unknown, the special reply-header code -128 maps to a
distinct HasReplyHeader entry, every other value maps to Unknown, and
every non-zero code is surfaced as a failure (readExceptionCode returns
true) rather than crashing the receiver. -/
theorem decodeExceptionMsg_characterization :
    (∀ rest : Parcel, readExceptionCode (WireField.int32 0 :: rest) = (false, rest))
    ∧ decodeExceptionMsg EX_SECURITY = "Security"
    ∧ decodeExceptionMsg EX_BAD_PARCELABLE = "BadParcelable"
    ∧ decodeExceptionMsg EX_NULL_POINTER = "NullPointer"
    ∧ decodeExceptionMsg EX_ILLEGAL_STATE = "IllegalState"
    ∧ decodeExceptionMsg EX_ILLEGAL_ARGUMENT = "Unknown"
    ∧ decodeExceptionMsg EX_HAS_REPLY_HEADER = "HasReplyHeader"
    ∧ (∀ c : Int, c ≠ EX_SECURITY → c ≠ EX_BAD_PARCELABLE → c ≠ EX_NULL_POINTER →
        c ≠ EX_ILLEGAL_STATE → c ≠ EX_HAS_REPLY_HEADER →
        decodeExceptionMsg c = "Unknown")
    ∧ (∀ (c : Int) (rest : Parcel), c ≠ 0 →
        readExceptionCode (WireField.int32 c :: rest) = (true, rest)) := by
  refine ⟨?_, by decide, by decide, by decide, by decide, by decide, by decide, ?_, ?_⟩
  · intro rest
    simp [readExceptionCode, readInt32]
  · intro c h1 h2 h3 h4 h5
    simp [decodeExceptionMsg, h1, h2, h3, h4, h5]
  · intro c rest hc
    simp [readExceptionCode, readInt32, hc]

/-- Witness for C3 as amended at the concrete unknown code -77 and the
concrete non-zero code -3. -/
theorem decodeExceptionMsg_characterization_witness :
    decodeExceptionMsg (-77) = "Unknown"
    ∧ readExceptionCode [WireField.int32 (-3)] = (true, []) :=
  ⟨decodeExceptionMsg_characterization.2.2.2.2.2.2.2.1 (-77)
     (by decide) (by decide) (by decide) (by decide) (by decide),
   decodeExceptionMsg_characterization.2.2.2.2.2.2.2.2 (-3) [] (by decide)⟩

/- Helper lemmas about single branches of BnCameraService onTransact,
shared by several developments below. -/

/-- Helper: the GET_CAMERA_INFO branch of the stub on an envelope passing
the interface check writes the no-exception marker, the implementation
status, the presence marker 1 and then facing and orientation. -/
theorem onTransact_getCameraInfo_eq
    (impl : ICameraServiceImpl) (args : Parcel) (result : Int) (ci : CameraInfo)
    (hinfo : impl.getCameraInfo (readInt32 args).1 (CameraInfo.mk 0 0) = (result, ci)) :
    BnCameraService_onTransact impl GET_CAMERA_INFO
        (WireField.interfaceToken interfaceDescriptor :: args)
      = some (NO_ERROR, [WireField.int32 0, WireField.int32 result, WireField.int32 1,
                         WireField.int32 ci.facing, WireField.int32 ci.orientation]) := by
  simp [BnCameraService_onTransact, GET_CAMERA_INFO, GET_NUMBER_OF_CAMERAS,
    checkInterface, hinfo, writeNoException, writeInt32, writeCameraInfoBlock]

/-- Helper: a connect branch of the stub on an envelope passing the
interface check, when the local implementation returns the non-null
reference, writes the no-exception marker and then that reference. -/
theorem onTransact_connect_some_eq
    (impl : ICameraServiceImpl) (args : Parcel) (camera : Nat)
    (hcam : connectApply impl.connect args = some camera) :
    BnCameraService_onTransact impl CONNECT
        (WireField.interfaceToken interfaceDescriptor :: args)
      = some (NO_ERROR, [WireField.int32 0, WireField.strongBinder (some camera)]) := by
  simp [BnCameraService_onTransact, CONNECT, GET_CAMERA_INFO, GET_NUMBER_OF_CAMERAS,
    checkInterface, hcam, writeNoException, writeInt32, writeStrongBinder]

/-- C5: for every recognized opcode, an envelope whose leading interface
token does not match the expected descriptor makes the stub return the
protocol-level rejection with an empty reply.  The result is one constant
independent of the local implementation and of every envelope field past
the leading token, so no argument is decoded and no implementation method
is invoked. -/
theorem stub_interface_mismatch_short_circuits
    (impl : ICameraServiceImpl) (code : Nat) (data : Parcel)
    (hcode : code ∈ [GET_NUMBER_OF_CAMERAS, GET_CAMERA_INFO, CONNECT, CONNECT_PRO,
                     CONNECT_DEVICE, ADD_LISTENER, REMOVE_LISTENER])
    (hbad : (checkInterface data).1 = false) :
    BnCameraService_onTransact impl code data = some (PERMISSION_DENIED, []) := by
  rcases hck : checkInterface data with ⟨ok, d⟩
  rw [hck] at hbad
  simp only at hbad
  subst hbad
  fin_cases hcode <;>
    simp [BnCameraService_onTransact, GET_NUMBER_OF_CAMERAS, GET_CAMERA_INFO, CONNECT,
      CONNECT_PRO, CONNECT_DEVICE, ADD_LISTENER, REMOVE_LISTENER, hck]

/-- Witness for C5: a concrete envelope bearing a wrong interface token,
delivered to the GET_CAMERA_INFO opcode of a concrete implementation. -/
theorem stub_interface_mismatch_short_circuits_witness :
    GET_CAMERA_INFO ∈ [GET_NUMBER_OF_CAMERAS, GET_CAMERA_INFO, CONNECT, CONNECT_PRO,
                       CONNECT_DEVICE, ADD_LISTENER, REMOVE_LISTENER]
    ∧ (checkInterface [WireField.interfaceToken "bogus", WireField.int32 0]).1 = false
    ∧ BnCameraService_onTransact implTest GET_CAMERA_INFO
        [WireField.interfaceToken "bogus", WireField.int32 0]
      = some (PERMISSION_DENIED, []) :=
  ⟨by decide, by decide,
   stub_interface_mismatch_short_circuits implTest GET_CAMERA_INFO
     [WireField.interfaceToken "bogus", WireField.int32 0] (by decide) (by decide)⟩

/-- C6: for every recognized opcode whose envelope passes the interface
check, the stub reply is the zero (None) outcome marker first, followed by
exactly that operations result fields in the order of section 6: the count
for GET_NUMBER_OF_CAMERAS; status, presence 1, facing, orientation for
GET_CAMERA_INFO; the returned reference for the three connects (when the
local implementation returns a non-null reference); the status for
ADD_LISTENER and REMOVE_LISTENER. -/
theorem stub_success_reply_shape
    (impl : ICameraServiceImpl) (args : Parcel) :
    BnCameraService_onTransact impl GET_NUMBER_OF_CAMERAS
        (WireField.interfaceToken interfaceDescriptor :: args)
      = some (NO_ERROR, [WireField.int32 0, WireField.int32 impl.getNumberOfCameras])
    ∧ (∀ result ci,
        impl.getCameraInfo (readInt32 args).1 (CameraInfo.mk 0 0) = (result, ci) →
        BnCameraService_onTransact impl GET_CAMERA_INFO
            (WireField.interfaceToken interfaceDescriptor :: args)
          = some (NO_ERROR, [WireField.int32 0, WireField.int32 result, WireField.int32 1,
                             WireField.int32 ci.facing, WireField.int32 ci.orientation]))
    ∧ (∀ camera, connectApply impl.connect args = some camera →
        BnCameraService_onTransact impl CONNECT
            (WireField.interfaceToken interfaceDescriptor :: args)
          = some (NO_ERROR, [WireField.int32 0, WireField.strongBinder (some camera)]))
    ∧ (∀ camera, connectApply impl.connectPro args = some camera →
        BnCameraService_onTransact impl CONNECT_PRO
            (WireField.interfaceToken interfaceDescriptor :: args)
          = some (NO_ERROR, [WireField.int32 0, WireField.strongBinder (some camera)]))
    ∧ (∀ camera, connectApply impl.connectDevice args = some camera →
        BnCameraService_onTransact impl CONNECT_DEVICE
            (WireField.interfaceToken interfaceDescriptor :: args)
          = some (NO_ERROR, [WireField.int32 0, WireField.strongBinder (some camera)]))
    ∧ BnCameraService_onTransact impl ADD_LISTENER
        (WireField.interfaceToken interfaceDescriptor :: args)
      = some (NO_ERROR, [WireField.int32 0,
                         WireField.int32 (impl.addListener (readStrongBinder args).1)])
    ∧ BnCameraService_onTransact impl REMOVE_LISTENER
        (WireField.interfaceToken interfaceDescriptor :: args)
      = some (NO_ERROR, [WireField.int32 0,
                         WireField.int32 (impl.removeListener (readStrongBinder args).1)]) := by
  refine ⟨?_, ?_, ?_, ?_, ?_, ?_, ?_⟩
  · simp [BnCameraService_onTransact, GET_NUMBER_OF_CAMERAS, checkInterface,
      writeNoException, writeInt32]
  · intro result ci h
    exact onTransact_getCameraInfo_eq impl args result ci h
  · intro camera h
    exact onTransact_connect_some_eq impl args camera h
  · intro camera h
    simp [BnCameraService_onTransact, GET_NUMBER_OF_CAMERAS, GET_CAMERA_INFO, CONNECT,
      CONNECT_PRO, checkInterface, h, writeNoException, writeInt32, writeStrongBinder]
  · intro camera h
    simp [BnCameraService_onTransact, GET_NUMBER_OF_CAMERAS, GET_CAMERA_INFO, CONNECT,
      CONNECT_PRO, CONNECT_DEVICE, checkInterface, h, writeNoException, writeInt32,
      writeStrongBinder]
  · simp [BnCameraService_onTransact, GET_NUMBER_OF_CAMERAS, GET_CAMERA_INFO, CONNECT,
      CONNECT_PRO, CONNECT_DEVICE, ADD_LISTENER, checkInterface, writeNoException,
      writeInt32]
  · simp [BnCameraService_onTransact, GET_NUMBER_OF_CAMERAS, GET_CAMERA_INFO, CONNECT,
      CONNECT_PRO, CONNECT_DEVICE, ADD_LISTENER, REMOVE_LISTENER, checkInterface,
      writeNoException, writeInt32]

/-- Witness for C6: a concrete implementation and argument list; the
count, connect and addListener branches evaluated. -/
theorem stub_success_reply_shape_witness :
    connectApply implTest.connect argsTest = some 5
    ∧ BnCameraService_onTransact implTest GET_NUMBER_OF_CAMERAS
        (WireField.interfaceToken interfaceDescriptor :: argsTest)
      = some (NO_ERROR, [WireField.int32 0, WireField.int32 2])
    ∧ BnCameraService_onTransact implTest CONNECT
        (WireField.interfaceToken interfaceDescriptor :: argsTest)
      = some (NO_ERROR, [WireField.int32 0, WireField.strongBinder (some 5)]) :=
  ⟨rfl, (stub_success_reply_shape implTest argsTest).1,
   (stub_success_reply_shape implTest argsTest).2.2.1 5 rfl⟩

/-- C2 counterexample: with a local implementation that reports the
non-zero status BAD_VALUE for an invalid camera id and leaves the
zero-initialized record untouched, the stub reply carries presence marker
1 (third field), not 0 — the stub writes the marker 1 unconditionally —
and the proxy decode therefore does interpret the facing and orientation
fields, overwriting the callers record with the zeroed values. -/
theorem getCameraInfo_invalid_id_presence_marker_is_one_cex :
    BnCameraService_onTransact implInvalid GET_CAMERA_INFO
        [WireField.interfaceToken interfaceDescriptor, WireField.int32 99]
      = some (NO_ERROR,
          [WireField.int32 0, WireField.int32 BAD_VALUE, WireField.int32 1,
           WireField.int32 0, WireField.int32 0])
    ∧ BAD_VALUE ≠ 0
    ∧ (1 : Int) ≠ 0
    ∧ getCameraInfo_decodeReply
        [WireField.int32 0, WireField.int32 BAD_VALUE, WireField.int32 1,
         WireField.int32 0, WireField.int32 0] (CameraInfo.mk 7 7)
      = (BAD_VALUE, CameraInfo.mk 0 0, []) :=
  ⟨by decide, by decide, by decide, by decide⟩

/-- C2 as amended: when getCameraInfo is called for an invalid camera id
(the implementation reports a non-zero status on the zero-initialized
record), the reply carries that non-zero status and a presence marker
equal to 1 — the stub writes the marker unconditionally — so the proxy
does decode the facing and orientation fields, which hold the values left
in the zero-initialized record. -/
theorem getCameraInfo_invalid_id_reply_presence_one
    (impl : ICameraServiceImpl) (args : Parcel) (result : Int) (ci : CameraInfo)
    (hinfo : impl.getCameraInfo (readInt32 args).1 (CameraInfo.mk 0 0) = (result, ci))
    (_hfail : result ≠ 0) :
    BnCameraService_onTransact impl GET_CAMERA_INFO
        (WireField.interfaceToken interfaceDescriptor :: args)
      = some (NO_ERROR, [WireField.int32 0, WireField.int32 result, WireField.int32 1,
                         WireField.int32 ci.facing, WireField.int32 ci.orientation])
    ∧ ∀ caller : CameraInfo,
        getCameraInfo_decodeReply
          [WireField.int32 0, WireField.int32 result, WireField.int32 1,
           WireField.int32 ci.facing, WireField.int32 ci.orientation] caller
        = (result, ci, []) := by
  refine ⟨onTransact_getCameraInfo_eq impl args result ci hinfo, ?_⟩
  intro caller
  simp [getCameraInfo_decodeReply, readExceptionCode, readInt32, readCameraInfoBlock]

/-- Witness for C2 as amended: the invalid-id implementation at camera id
99. -/
theorem getCameraInfo_invalid_id_reply_presence_one_witness :
    implInvalid.getCameraInfo (readInt32 [WireField.int32 99]).1 (CameraInfo.mk 0 0)
      = (BAD_VALUE, CameraInfo.mk 0 0)
    ∧ BAD_VALUE ≠ 0
    ∧ BnCameraService_onTransact implInvalid GET_CAMERA_INFO
        [WireField.interfaceToken interfaceDescriptor, WireField.int32 99]
      = some (NO_ERROR,
          [WireField.int32 0, WireField.int32 BAD_VALUE, WireField.int32 1,
           WireField.int32 0, WireField.int32 0]) :=
  ⟨rfl, by decide,
   (getCameraInfo_invalid_id_reply_presence_one implInvalid [WireField.int32 99]
      BAD_VALUE (CameraInfo.mk 0 0) rfl (by decide)).1⟩

/-- C8: an unrecognized opcode is delegated to the generic BBinder
fallback, whose reply is a defined failure: a non-success status and no
reply fields.  The result is a constant independent of the local
implementation, so none of the 7 operation handlers is invoked. -/
theorem stub_unrecognized_opcode_fallback
    (impl : ICameraServiceImpl) (code : Nat) (data : Parcel)
    (hcode : code ∉ [GET_NUMBER_OF_CAMERAS, GET_CAMERA_INFO, CONNECT, CONNECT_PRO,
                     CONNECT_DEVICE, ADD_LISTENER, REMOVE_LISTENER]) :
    BnCameraService_onTransact impl code data = some (bbinderOnTransact code data)
    ∧ (bbinderOnTransact code data).1 ≠ NO_ERROR
    ∧ (bbinderOnTransact code data).2 = [] := by
  simp only [List.mem_cons, List.not_mem_nil, or_false, not_or] at hcode
  obtain ⟨h1, h2, h3, h4, h5, h6, h7⟩ := hcode
  refine ⟨?_, by norm_num [bbinderOnTransact, UNKNOWN_TRANSACTION, NO_ERROR], rfl⟩
  simp [BnCameraService_onTransact, h1, h2, h3, h4, h5, h6, h7]

/-- Witness for C8 at the concrete unrecognized opcode 42. -/
theorem stub_unrecognized_opcode_fallback_witness :
    (42 : Nat) ∉ [GET_NUMBER_OF_CAMERAS, GET_CAMERA_INFO, CONNECT, CONNECT_PRO,
                  CONNECT_DEVICE, ADD_LISTENER, REMOVE_LISTENER]
    ∧ BnCameraService_onTransact implTest 42 [] = some (bbinderOnTransact 42 []) :=
  ⟨by decide, (stub_unrecognized_opcode_fallback implTest 42 [] (by decide)).1⟩

/-- C10: for each of the three connect opcodes on an envelope passing the
interface check, the stub calls asBinder on the reference returned by the
local implementation unconditionally; when that reference is null the
dispatch is a null dereference — embedded as the undefined outcome none —
rather than a reply with a non-None exception outcome. -/
theorem stub_connect_null_result_dereferences_null
    (impl : ICameraServiceImpl) (args : Parcel)
    (h1 : connectApply impl.connect args = none)
    (h2 : connectApply impl.connectPro args = none)
    (h3 : connectApply impl.connectDevice args = none) :
    BnCameraService_onTransact impl CONNECT
        (WireField.interfaceToken interfaceDescriptor :: args) = none
    ∧ BnCameraService_onTransact impl CONNECT_PRO
        (WireField.interfaceToken interfaceDescriptor :: args) = none
    ∧ BnCameraService_onTransact impl CONNECT_DEVICE
        (WireField.interfaceToken interfaceDescriptor :: args) = none := by
  refine ⟨?_, ?_, ?_⟩
  · simp [BnCameraService_onTransact, GET_NUMBER_OF_CAMERAS, GET_CAMERA_INFO, CONNECT,
      checkInterface, h1]
  · simp [BnCameraService_onTransact, GET_NUMBER_OF_CAMERAS, GET_CAMERA_INFO, CONNECT,
      CONNECT_PRO, checkInterface, h2]
  · simp [BnCameraService_onTransact, GET_NUMBER_OF_CAMERAS, GET_CAMERA_INFO, CONNECT,
      CONNECT_PRO, CONNECT_DEVICE, checkInterface, h3]

/-- Witness for C10: a local implementation whose connect operations all
return the null reference, on a concrete envelope. -/
theorem stub_connect_null_result_dereferences_null_witness :
    connectApply implInvalid.connect argsTest = none
    ∧ BnCameraService_onTransact implInvalid CONNECT
        (WireField.interfaceToken interfaceDescriptor :: argsTest) = none :=
  ⟨rfl,
   (stub_connect_null_result_dereferences_null implInvalid argsTest rfl rfl rfl).1⟩
